import Mathlib

/-!
Verification development for the UAP dashboard script (`src/uapdb/app.py`).

The script is a linear pandas/Dash program: it loads a CSV, derives
per-row features (sentiment scores, word counts, log-scaled scores,
a category label, binary keyword flags), concatenates them into one
enriched table (`final_df`), and serves a dashboard whose single
callback (`update_charts`) filters the table by year range and country
selection and rebuilds four chart specifications.

Shallow embedding conventions:
* a table is a `List` of rows; a pandas index is made explicit as a
  `Nat` paired with the row where index alignment matters;
* nullable CSV cells are `Option` values; a float `NaN` produced by
  `pd.to_numeric(errors=..)` is `none`;
* the sentiment library (`TextBlob(x).sentiment`) is an opaque
  deterministic function `sent : String → ℚ × ℚ` (polarity,
  subjectivity), universally quantified in the theorems;
* the floating-point natural logarithm `np.log` is an opaque
  deterministic function `rlog : ℚ → ℚ`, universally quantified; the
  numeric claims are about the exact shape of the formulas, which is
  what the spec asserts;
* machine floats are modelled as exact rationals `ℚ` (every concrete
  float value is rational);
* `CountVectorizer(vocabulary=keywords, binary=True)` tokenizes with
  the default token pattern `\b\w\w+\b` (maximal runs of word
  characters, kept when at least two characters long) and sets a flag
  exactly when the vocabulary entry occurs among the tokens; this is
  modelled faithfully by `tokensOf` and `kwFlag` below.
-/

/-- One raw CSV row as produced by `pd.read_csv("updb.csv")`.  The five
columns named in the `dropna(subset=[...])` call are nullable; `city` is
only used for hover labels and is kept plain.  The raw `Year` cell is a
string still to be coerced by `pd.to_numeric`. -/
structure RawRow where
  latitude : Option ℚ
  longitude : Option ℚ
  country : Option String
  city : String
  year : Option String
  description : Option String
deriving DecidableEq

/-- One row of the enriched table `final_df` after the feature pipeline
(lines 14-33 of `app.py`).  `year` is `Option Int` because the numeric
coercion can leave a `NaN` (modelled `none`).  `kws` holds the twelve
binary keyword flags as the association list produced by the
`CountVectorizer` columns `kw_craft .. kw_entity`. -/
structure Enriched where
  country : String
  city : String
  latitude : ℚ
  longitude : ℚ
  year : Option Int
  description : String
  sentiment : ℚ
  subjectivity : ℚ
  mentions : Nat
  impact : ℚ
  veracity : ℚ
  image_score : ℚ
  category : String
  short_description : String
  kws : List (String × Bool)
deriving DecidableEq

/-- Accumulate decimal digits; fail on the first non-digit. -/
def parseDigits (acc : Nat) : List Char → Option Nat
  | [] => some acc
  | c :: rest =>
    if c.isDigit then parseDigits (acc * 10 + (c.toNat - 48)) rest else none

/-- `pd.to_numeric(cell, errors="coerce")` for a year cell: parse as a
number (optional leading minus sign, then decimal digits), `NaN`
(= `none`) when unparsable.  Years are integral in this dataset, so the
numeric domain is `Int`. -/
def to_numeric (s : String) : Option Int :=
  match s.toList with
  | [] => none
  | '-' :: rest =>
    if rest.isEmpty then none
    else (parseDigits 0 rest).map (fun n => -(n : Int))
  | cs => (parseDigits 0 cs).map (fun n => (n : Int))

/-- Python `len(str(x).split())`: the number of maximal runs of
non-whitespace characters.  `runsAux p seen cs` collects the maximal
runs of characters satisfying `p` in `cs`, with `seen` the (reversed)
run in progress. -/
def runsAux (p : Char → Bool) : List Char → List Char → List (List Char)
  | seen, [] => if seen.isEmpty then [] else [seen.reverse]
  | seen, c :: rest =>
    if p c then runsAux p (c :: seen) rest
    else if seen.isEmpty then runsAux p [] rest
    else seen.reverse :: runsAux p [] rest

/-- Word count of a description: `len(str(x).split())`. -/
def wordCount (s : String) : Nat :=
  (runsAux (fun c => !c.isWhitespace) [] s.toList).length

/-- A regex word character (`\w`): alphanumeric or underscore. -/
def isWordChar (c : Char) : Bool :=
  c.isAlphanum || c == '_'

/-- The tokens that `CountVectorizer` extracts from a character list:
maximal runs of word characters (`\b\w\w+\b`), kept when at least two
characters long. -/
def tokensOf (cs : List Char) : List String :=
  ((runsAux isWordChar [] cs).filter (fun t => 2 ≤ t.length)).map List.asString

/-- The binary keyword flag the vectorizer computes for vocabulary entry
`kw` on a description: the description is lowercased
(`df["description"].str.lower()`, and the vectorizer lowercases again)
and the flag is set exactly when `kw` occurs among its tokens. -/
def kwFlag (kw : String) (desc : String) : Bool :=
  (tokensOf (desc.toList.map Char.toLower)).contains kw

/-- The fixed twelve-entry keyword vocabulary (line 28 of `app.py`). -/
def keywords : List String :=
  ["craft", "alien", "ufo", "object", "disk", "orb", "triangle",
   "hover", "saucer", "cigar", "sphere", "entity"]

/-- `True` when the row has all five columns required by
`dropna(subset=["latitude", "longitude", "country", "Year", "description"])`. -/
def requiredPresent (r : RawRow) : Bool :=
  r.latitude.isSome && r.longitude.isSome && r.country.isSome &&
    r.year.isSome && r.description.isSome

/-- Pandas index alignment: look up the value a series holds at index
`i`, `NaN` (= `none`) when the series has no entry for `i`.  Used to
model the assignment `df["Year"] = series` where `series` may lack some
of the indices of `df`. -/
def lookupIdx (series : List (Nat × Int)) (i : Nat) : Option Int :=
  (series.find? (fun q => q.1 == i)).map (fun q => q.2)

/-- One enriched row computed from a surviving raw row: the NLP
columns (lines 19-25), the category split (line 24) and the keyword
flags (lines 28-30) of `app.py`.  `yr` is the value the (re-aligned)
`Year` column holds for this row. -/
def mkEnriched (sent : String → ℚ × ℚ) (rlog : ℚ → ℚ)
    (yr : Option Int) (r : RawRow) : Enriched :=
  let desc := r.description.getD ""
  let sp := sent desc
  { country := r.country.getD ""
    city := r.city
    latitude := r.latitude.getD 0
    longitude := r.longitude.getD 0
    year := yr
    description := desc
    sentiment := sp.1
    subjectivity := sp.2
    mentions := wordCount desc
    impact := rlog ((wordCount desc : ℚ) + 1)
    veracity := rlog ((wordCount desc : ℚ) + 1) * |sp.1|
    image_score := (|sp.1| + sp.2) * (rlog ((wordCount desc : ℚ) + 1) * |sp.1|)
    category := if sp.2 < 0.5 then "Scientific" else "Emotional"
    short_description := List.asString (desc.toList.take 100) ++ "..."
    kws := keywords.map (fun kw => (kw, kwFlag kw desc)) }

/-- The feature pipeline building the enriched table `final_df`
(lines 14-33 of `app.py`), parametrized by the opaque sentiment
function and the opaque float logarithm.

Steps, in source order:
1. `read_csv` gives every row its positional index (`List.enum`);
2. `dropna(subset=[...])` keeps rows with all five required cells,
   preserving their indices;
3. `pd.to_numeric(df["Year"], errors="coerce")` coerces the year cells
   into a series over the same indices, `NaN` for unparsable cells;
4. `.dropna()` on that series removes the `NaN` entries;
5. the assignment `df["Year"] = ...` re-aligns the shortened series on
   the index of `df`: a row whose index the series no longer holds gets
   `NaN` back.  The rows themselves stay in `df`;
6. per-row NLP columns, category, short description and keyword flags
   are computed, and `pd.concat` puts them side by side in row order. -/
def final_df (sent : String → ℚ × ℚ) (rlog : ℚ → ℚ)
    (raw : List RawRow) : List Enriched :=
  let indexed := raw.enum
  let kept := indexed.filter (fun p => requiredPresent p.2)
  let coerced := kept.map (fun p => (p.1, to_numeric (p.2.year.getD "")))
  let nonNull := coerced.filterMap (fun q => q.2.map (fun v => (q.1, v)))
  kept.map (fun p => mkEnriched sent rlog (lookupIdx nonNull p.1) p.2)

/-- `True` when the Python truthiness test `if countries:` passes: the
callback argument is neither `None` nor an empty selection list. -/
def countrySelected : Option (List String) → Bool
  | none => false
  | some l => !l.isEmpty

/-- The pandas predicate `final_df["Year"].between(lo, hi)`: inclusive
on both ends, `False` on a `NaN` year. -/
def yearPred (lo hi : Int) : Option Int → Bool
  | some y => decide (lo ≤ y) && decide (y ≤ hi)
  | none => false

/-- The first filtering stage of `update_charts` (line 70):
`final_df[final_df["Year"].between(years[0], years[1])]`. -/
def yearStage (table : List Enriched) (lo hi : Int) : List Enriched :=
  table.filter (fun r => yearPred lo hi r.year)

/-- The second, conditional filtering stage of `update_charts`
(lines 71-72): `if countries: dff = dff[dff["country"].isin(countries)]`. -/
def countryStage (table : List Enriched) (cs : Option (List String)) : List Enriched :=
  if countrySelected cs then
    table.filter (fun r => (cs.getD []).contains r.country)
  else table

/-- The filtered subset `dff` that `update_charts` computes from the
enriched table and the two filter controls: year-range stage first,
then the conditional country stage. -/
def filteredSubset (table : List Enriched) (cs : Option (List String))
    (years : Int × Int) : List Enriched :=
  countryStage (yearStage table years.1 years.2) cs

/-- The opposite predicate order, written from the words of the spec
(country filter first, then the year-range filter), to be compared with
`filteredSubset` for the commutativity claim. -/
def countryFirstSubset (table : List Enriched) (cs : Option (List String))
    (years : Int × Int) : List Enriched :=
  yearStage (countryStage table cs) years.1 years.2

/-- `series.mean()` over a column: `NaN` (= `none`) on an empty
subset, the arithmetic mean otherwise. -/
def seriesMean (l : List ℚ) : Option ℚ :=
  if l.isEmpty then none else some (l.sum / (l.length : ℚ))

/-- Insert a year into a sorted list (helper for the `groupby` model). -/
def insertSorted (y : Int) : List Int → List Int
  | [] => [y]
  | x :: xs => if y ≤ x then y :: x :: xs else x :: insertSorted y xs

/-- Sort a list of years ascending (insertion sort). -/
def sortInts (l : List Int) : List Int :=
  l.foldr insertSorted []

/-- Collapse equal neighbours of a sorted list. -/
def dedupSorted : List Int → List Int
  | [] => []
  | [x] => [x]
  | x :: y :: r => if x = y then dedupSorted (y :: r) else x :: dedupSorted (y :: r)

/-- `dff.groupby("Year").size()` (line 78): group keys are the distinct
non-`NaN` years in ascending order, each with the number of rows
carrying it. -/
def yearCounts (dff : List Enriched) : List (Int × Nat) :=
  let ys := dff.filterMap (fun r => r.year)
  (dedupSorted (sortInts ys)).map (fun y => (y, ys.count y))

/-- The geographic scatter specification (`px.scatter_geo`, lines
74-76): per-row position, hover name, colour (category) and size
(veracity). -/
structure GeoFig where
  lats : List ℚ
  lons : List ℚ
  hoverNames : List String
  colors : List String
  sizes : List ℚ
deriving DecidableEq

/-- The yearly trend line specification (`px.line` over the year
grouping, lines 78-79). -/
structure TrendFig where
  points : List (Int × Nat)
deriving DecidableEq

/-- The sentiment/subjectivity scatter specification (`px.scatter`,
lines 81-82). -/
structure HyperFig where
  xs : List ℚ
  ys : List ℚ
  sizes : List ℚ
  colors : List String
deriving DecidableEq

/-- The density map specification (`px.density_mapbox`, lines 84-86):
per-row position and weight, fixed radius and zoom, and a centre taken
from the mean latitude/longitude of the filtered subset (`NaN` =
`none` when the subset is empty). -/
structure BattleFig where
  lats : List ℚ
  lons : List ℚ
  zs : List ℚ
  radius : Nat
  centerLat : Option ℚ
  centerLon : Option ℚ
  zoom : Nat
deriving DecidableEq

/-- The four chart specifications returned by one callback invocation. -/
structure Charts where
  geo : GeoFig
  trend : TrendFig
  hyper : HyperFig
  battle : BattleFig
deriving DecidableEq

/-- The callback `update_charts(countries, years)` (lines 69-88).  The
enriched table is process-global shared state the callback reads; the
embedding passes it in explicitly and returns it next to the four
chart specifications, so that the frame claim (the callback never
mutates the table) is a statement about the returned state. -/
def update_charts (table : List Enriched) (countries : Option (List String))
    (years : Int × Int) : List Enriched × Charts :=
  let dff := filteredSubset table countries years
  (table,
   { geo :=
      { lats := dff.map (fun r => r.latitude)
        lons := dff.map (fun r => r.longitude)
        hoverNames := dff.map (fun r => r.city)
        colors := dff.map (fun r => r.category)
        sizes := dff.map (fun r => r.veracity) }
     trend := { points := yearCounts dff }
     hyper :=
      { xs := dff.map (fun r => r.sentiment)
        ys := dff.map (fun r => r.subjectivity)
        sizes := dff.map (fun r => r.veracity)
        colors := dff.map (fun r => r.category) }
     battle :=
      { lats := dff.map (fun r => r.latitude)
        lons := dff.map (fun r => r.longitude)
        zs := dff.map (fun r => r.image_score)
        radius := 20
        centerLat := seriesMean (dff.map (fun r => r.latitude))
        centerLon := seriesMean (dff.map (fun r => r.longitude))
        zoom := 1 } })

/-- Case-insensitive substring presence, written from the words of the
spec ("T (case-insensitive) appears as a substring of R's
description"), to be compared with the code-derived `kwFlag`.
`leadsWith t s` holds when `t` is an initial segment of `s`. -/
def leadsWith : List Char → List Char → Bool
  | [], _ => true
  | _ :: _, [] => false
  | a :: as, b :: bs => a == b && leadsWith as bs

/-- `hasSub t s`: `t` occurs as a contiguous segment of `s`. -/
def hasSub (t : List Char) : List Char → Bool
  | [] => leadsWith t []
  | c :: rest => leadsWith t (c :: rest) || hasSub t rest

/-- Spec-side keyword predicate: the term appears case-insensitively
as a substring of the description. -/
def specSubstrFlag (t s : String) : Bool :=
  hasSub (t.toList.map Char.toLower) (s.toList.map Char.toLower)

/-- A fixed representative sentiment function for concrete witnesses
(the claims settled on concrete inputs do not depend on the sentiment
values). -/
def s0 : String → ℚ × ℚ := fun _ => (0, 0)

/-- A fixed representative float logarithm for concrete witnesses. -/
def l0 : ℚ → ℚ := fun _ => 0

/-- The Reno row of the end-to-end scenario in the spec. -/
def renoRaw : RawRow :=
  { latitude := some (39.5 : ℚ)
    longitude := some (-119.8 : ℚ)
    country := some "USA"
    city := "Reno"
    year := some "1995"
    description := some "A silver saucer with a hovering disk shape" }

/-- The Paris row of the end-to-end scenario in the spec. -/
def parisRaw : RawRow :=
  { latitude := some (48.8 : ℚ)
    longitude := some (2.3 : ℚ)
    country := some "France"
    city := "Paris"
    year := some "2001"
    description := some "Bright orb seen over the city" }

/-- A raw row whose five required cells are all present but whose
`Year` cell does not parse as a number. -/
def badYearRaw : RawRow :=
  { latitude := some 1
    longitude := some 2
    country := some "USA"
    city := "Badtown"
    year := some "unknown"
    description := some "something seen" }

/-- A raw row whose description contains the keyword `hover` only as a
proper substring of the longer word `hovering`. -/
def hoverRaw : RawRow :=
  { latitude := some 0
    longitude := some 0
    country := some "USA"
    city := "Hoverville"
    year := some "1990"
    description := some "hovering" }

/-- The enriched row the pipeline computes from `renoRaw` under the
representative sentiment and logarithm functions. -/
def renoRec : Enriched := mkEnriched s0 l0 (some 1995) renoRaw

/-- Association-list lookup over a list of pairs built by tagging each
key with a computed value: looking up a key that is in the key list
returns its computed value. -/
theorem lookup_map_of_mem (f : String → Bool) :
    ∀ (l : List String) (T : String), T ∈ l →
      (l.map (fun k => (k, f k))).lookup T = some (f T) := by
  intro l
  induction l with
  | nil => intro T h; cases h
  | cons k ks ih =>
    intro T h
    by_cases hk : T = k
    · subst hk; simp [List.lookup]
    · have hbeq : (T == k) = false := by simp [hk]
      have hmem : T ∈ ks := by
        rcases List.mem_cons.1 h with h1 | h1
        · exact absurd h1 hk
        · exact h1
      simp [List.lookup, hbeq, ih T hmem]

/-- C1: the claim states that a raw row whose `Year` cell fails numeric
coercion is absent from the enriched table.  Evaluating the pipeline on
a two-row input whose second row has the unparsable year cell
"unknown" shows the opposite: the row is still present in the enriched
table, carrying a `NaN` (= `none`) year.  The series produced by
`pd.to_numeric(df["Year"], errors="coerce").dropna()` loses the index
of that row, but the assignment back into `df["Year"]` re-aligns on the
index of `df` and reintroduces `NaN` instead of dropping the row. -/
theorem c1_unparsable_year_row_kept :
    ∀ (sent : String → ℚ × ℚ) (rlog : ℚ → ℚ),
      (final_df sent rlog [renoRaw, badYearRaw]).map (fun r => (r.city, r.year)) =
        [("Reno", some (1995 : Int)), ("Badtown", (none : Option Int))] := by
  intro sent rlog
  rfl

/-- C2 counterexample: the claim states that a keyword flag is set
exactly when the term occurs case-insensitively as a substring of the
description.  On the single-row table whose description is "hovering",
the flag that the vectorizer computes for "hover" is `false` although
"hover" is a case-insensitive substring of "hovering": the vectorizer
matches whole tokens, not substrings. -/
theorem c2_counterexample :
    ¬ (∀ r ∈ final_df s0 l0 [hoverRaw], ∀ T ∈ keywords,
        r.kws.lookup T = some (specSubstrFlag T r.description)) := by
  decide

/-- C2 (amended): for every record of the enriched table and every term
of the twelve-keyword vocabulary, the keyword flag of the record is set
exactly when the term occurs as a whole token (a maximal run of at
least two word characters) of the lowercased description. -/
theorem c2_keyword_flag_is_token_presence
    (sent : String → ℚ × ℚ) (rlog : ℚ → ℚ) (raw : List RawRow)
    (r : Enriched) (T : String)
    (hr : r ∈ final_df sent rlog raw) (hT : T ∈ keywords) :
    r.kws.lookup T = some (kwFlag T r.description) := by
  simp only [final_df] at hr
  obtain ⟨p, hp, rfl⟩ := List.mem_map.1 hr
  exact lookup_map_of_mem (fun kw => kwFlag kw (p.2.description.getD "")) keywords T hT

/-- C2 witness: the amended theorem applied to the Reno record and the
term "hover". -/
theorem c2_witness :
    renoRec ∈ final_df s0 l0 [renoRaw] ∧ "hover" ∈ keywords ∧
      renoRec.kws.lookup "hover" = some (kwFlag "hover" renoRec.description) :=
  ⟨List.Mem.head _, by decide,
   c2_keyword_flag_is_token_presence s0 l0 [renoRaw] renoRec "hover"
     (List.Mem.head _) (by decide)⟩

/-- C3 counterexample: the claim states that the Reno record surviving
the [1995, 1995] year filter has `kw_hover = true`.  Evaluating the
pipeline and the filter on the two-row scenario input shows the
filtered subset is exactly the Reno record but its `kw_hover` flag is
`false`: the description contains "hovering", which the vectorizer
does not tokenize as "hover". -/
theorem c3_counterexample :
    (filteredSubset (final_df s0 l0 [renoRaw, parisRaw]) none (1995, 1995)).map
        (fun r => (r.city, r.kws.lookup "hover")) =
      [("Reno", some false)] := by
  rfl

/-- C3 (amended): on the two-row scenario input, the filter handler
with year range [1995, 1995] and no country selection yields exactly
the Reno record, with `kw_saucer = true`, `kw_disk = true`,
`kw_hover = false` and `kw_orb = false`, for every sentiment function
and every logarithm function. -/
theorem c3_scenario :
    ∀ (sent : String → ℚ × ℚ) (rlog : ℚ → ℚ),
      (filteredSubset (final_df sent rlog [renoRaw, parisRaw]) none (1995, 1995)).map
          (fun r => (r.city, r.kws.lookup "saucer", r.kws.lookup "disk",
                     r.kws.lookup "hover", r.kws.lookup "orb")) =
        [("Reno", some true, some true, some false, some false)] := by
  intro sent rlog
  rfl

/-- C4: for every record of the enriched table, `mentions` is the word
count of the description, `impact` is `log(mentions + 1)`, `veracity`
is `log(mentions + 1) * |sentiment|`, and `image_score` is
`(|sentiment| + subjectivity) * veracity`, where `log` is the opaque
float logarithm the pipeline was run with. -/
theorem c4_derived_field_formulas
    (sent : String → ℚ × ℚ) (rlog : ℚ → ℚ) (raw : List RawRow)
    (r : Enriched) (hr : r ∈ final_df sent rlog raw) :
    r.mentions = wordCount r.description ∧
    r.impact = rlog ((r.mentions : ℚ) + 1) ∧
    r.veracity = rlog ((r.mentions : ℚ) + 1) * |r.sentiment| ∧
    r.image_score = (|r.sentiment| + r.subjectivity) * r.veracity := by
  simp only [final_df] at hr
  obtain ⟨p, hp, rfl⟩ := List.mem_map.1 hr
  exact ⟨rfl, rfl, rfl, rfl⟩

/-- C4 witness: the formula theorem applied to the Reno record. -/
theorem c4_witness :
    renoRec ∈ final_df s0 l0 [renoRaw] ∧
      (renoRec.mentions = wordCount renoRec.description ∧
       renoRec.impact = l0 ((renoRec.mentions : ℚ) + 1) ∧
       renoRec.veracity = l0 ((renoRec.mentions : ℚ) + 1) * |renoRec.sentiment| ∧
       renoRec.image_score =
         (|renoRec.sentiment| + renoRec.subjectivity) * renoRec.veracity) :=
  ⟨List.Mem.head _, c4_derived_field_formulas s0 l0 [renoRaw] renoRec (List.Mem.head _)⟩

/-- Helper for C5: the two-way split an if-then-else on the 0.5
subjectivity threshold produces. -/
theorem category_split (q : ℚ) :
    ((if q < 0.5 then "Scientific" else "Emotional") = "Scientific" ↔ q < 0.5) ∧
    ((if q < 0.5 then "Scientific" else "Emotional") = "Scientific" ∨
     (if q < 0.5 then "Scientific" else "Emotional") = "Emotional") := by
  by_cases h : q < 0.5 <;> simp [h]

/-- C5: for every record of the enriched table, `category` equals
"Scientific" exactly when the subjectivity is strictly below 0.5, and
the field takes no value other than "Scientific" or "Emotional". -/
theorem c5_category_total_split
    (sent : String → ℚ × ℚ) (rlog : ℚ → ℚ) (raw : List RawRow)
    (r : Enriched) (hr : r ∈ final_df sent rlog raw) :
    (r.category = "Scientific" ↔ r.subjectivity < 0.5) ∧
    (r.category = "Scientific" ∨ r.category = "Emotional") := by
  simp only [final_df] at hr
  obtain ⟨p, hp, rfl⟩ := List.mem_map.1 hr
  exact category_split ((sent (p.2.description.getD "")).2)

/-- C5 witness: the category theorem applied to the Reno record. -/
theorem c5_witness :
    renoRec ∈ final_df s0 l0 [renoRaw] ∧
      ((renoRec.category = "Scientific" ↔ renoRec.subjectivity < 0.5) ∧
       (renoRec.category = "Scientific" ∨ renoRec.category = "Emotional")) :=
  ⟨List.Mem.head _, c5_category_total_split s0 l0 [renoRaw] renoRec (List.Mem.head _)⟩

/-- C6: the year-range filter of `update_charts` is inclusive on both
ends: a record of the table whose year equals the lower or the upper
bound of an ordered range is retained in the filtered subset, provided
the country stage does not remove it (no selection, or its country is
selected). -/
theorem c6_year_bounds_inclusive
    (table : List Enriched) (cs : Option (List String)) (lo hi : Int)
    (r : Enriched) (hmem : r ∈ table) (hle : lo ≤ hi)
    (hy : r.year = some lo ∨ r.year = some hi)
    (hc : countrySelected cs = false ∨ (cs.getD []).contains r.country = true) :
    r ∈ filteredSubset table cs (lo, hi) := by
  have hyear : yearPred lo hi r.year = true := by
    rcases hy with h | h <;> rw [h] <;> simp [yearPred, hle, le_refl]
  have h1 : r ∈ yearStage table lo hi :=
    List.mem_filter.2 ⟨hmem, hyear⟩
  unfold filteredSubset countryStage
  rcases hc with h | h
  · simp [h]
    exact h1
  · by_cases hsel : countrySelected cs
    · simp [hsel]
      exact ⟨h1, by simpa using h⟩
    · simp [hsel]
      exact h1

/-- C6 witness: the inclusivity theorem applied to the Reno record at
the degenerate range [1995, 1995] with no country selection. -/
theorem c6_witness :
    renoRec ∈ [renoRec] ∧ (1995 : Int) ≤ 1995 ∧
      (renoRec.year = some 1995 ∨ renoRec.year = some 1995) ∧
      countrySelected none = false ∧
      renoRec ∈ filteredSubset [renoRec] none (1995, 1995) :=
  ⟨List.Mem.head _, by decide, Or.inl rfl, rfl,
   c6_year_bounds_inclusive [renoRec] none 1995 1995 renoRec
     (List.Mem.head _) (by decide) (Or.inl rfl) (Or.inl rfl)⟩

/-- C7: with a country selection that is `None` or empty, the country
stage of `update_charts` retains every record, so the filtered subset
is exactly the output of the year-range stage. -/
theorem c7_empty_country_selection_keeps_all
    (table : List Enriched) (years : Int × Int) :
    filteredSubset table none years = yearStage table years.1 years.2 ∧
    filteredSubset table (some []) years = yearStage table years.1 years.2 :=
  ⟨rfl, rfl⟩

/-- C8: the filtered subset computed by `update_charts` (year-range
stage first, then the conditional country stage) equals the subset
computed with the two stages in the opposite order, for every table,
selection and year range. -/
theorem c8_filter_order_commutes
    (table : List Enriched) (cs : Option (List String)) (years : Int × Int) :
    filteredSubset table cs years = countryFirstSubset table cs years := by
  unfold filteredSubset countryFirstSubset countryStage yearStage
  by_cases h : countrySelected cs
  · simp only [h, if_true]
    exact List.filter_comm _ _ _
  · simp [h]

/-- C9: one invocation of `update_charts` leaves the shared enriched
table unchanged; the callback only derives transient subsets for the
four chart specifications. -/
theorem c9_table_not_mutated
    (table : List Enriched) (cs : Option (List String)) (years : Int × Int) :
    (update_charts table cs years).1 = table :=
  rfl

/-- C10: when the filtered subset is empty, `update_charts` still
returns the four chart specifications; the density-map centre, the
mean of the empty latitude and longitude columns, is `NaN` (= `none`),
and the chart data lists are empty. -/
theorem c10_empty_subset_yields_nan_center
    (table : List Enriched) (cs : Option (List String)) (years : Int × Int)
    (h : filteredSubset table cs years = []) :
    (update_charts table cs years).2.battle.centerLat = none ∧
    (update_charts table cs years).2.battle.centerLon = none ∧
    (update_charts table cs years).2.geo.lats = [] ∧
    (update_charts table cs years).2.trend.points = [] := by
  simp [update_charts, h, seriesMean, yearCounts, sortInts, dedupSorted]

/-- C10 witness: the empty-subset theorem applied to the empty table. -/
theorem c10_witness :
    filteredSubset [] none (0, 0) = [] ∧
      ((update_charts [] none (0, 0)).2.battle.centerLat = none ∧
       (update_charts [] none (0, 0)).2.battle.centerLon = none ∧
       (update_charts [] none (0, 0)).2.geo.lats = [] ∧
       (update_charts [] none (0, 0)).2.trend.points = []) :=
  ⟨rfl, c10_empty_subset_yields_nan_center [] none (0, 0) rfl⟩
